import Mathlib

/-!
Shallow embedding of `src/app.py`, a Streamlit chat application that answers
questions about rice plant diseases.

External effectful capabilities are modelled as explicit parameters:
the extractive QA pipeline, the Whisper transcription result and the gTTS
synthesiser each become a value of an `Except`-returning type, where
`Except.error` models an exception raised by the library call and caught by
the surrounding `try/except` in the script.  Streamlit display calls
(`st.error`, `st.warning`) are modelled as lists of emitted messages, and
the on-disk temporary-file manipulation of the voice path is modelled as a
trace of file events.
-/

namespace RiceQA

/-- Python substring test `needle in haystack` on explicit character lists:
true iff `nd` occurs contiguously inside the second list. -/
def listContainsSub (nd : List Char) : List Char → Bool
  | [] => nd.isPrefixOf ([] : List Char)
  | a :: t => nd.isPrefixOf (a :: t) || listContainsSub nd t

/-- Python's `needle in haystack` operator on strings, as used by the keyword
scan at `app.py` line 208. -/
def containsSubstr (haystack needle : String) : Bool :=
  listContainsSub needle.data haystack.data

/-- Python `str.lower()` (`question.lower()`, `app.py` line 206): every
character is lower-cased individually. -/
def pyLower (s : String) : String := String.mk (s.data.map Char.toLower)

/-- Python `str.strip()` (`result["text"].strip()`, `app.py` line 159):
leading and trailing whitespace is removed. -/
def pyStrip (s : String) : String :=
  String.mk
    (((s.data.dropWhile Char.isWhitespace).reverse.dropWhile
        Char.isWhitespace).reverse)

/-- Python `str.title()` on a character list, threading whether the previous
character was alphabetic: the first letter of every word is upper-cased and
the following letters lower-cased (`matched_disease.title()`, line 220). -/
def titleChars : List Char → Bool → List Char
  | [], _ => []
  | c :: cs, prevAlpha =>
    (if c.isAlpha then (if prevAlpha then c.toLower else c.toUpper) else c) ::
      titleChars cs c.isAlpha

/-- Python `str.title()` (`app.py` line 220). -/
def title (s : String) : String := String.mk (titleChars s.data false)

/-- The knowledge base `sections` (`app.py` lines 41-55), in declaration
order.  Python dicts preserve insertion order, so iteration over
`sections.items()` visits the pairs in exactly this order. -/
def sections : List (String × String) := [
  ("bacterial leaf blight", "Bacterial Leaf Blight is caused by the bacterium Xanthomonas oryzae pv. oryzae. It affects leaves, leading to yellowing and wilting. Management includes using resistant varieties and proper field sanitation."),
  ("bacterial leaf streak", "Bacterial Leaf Streak is caused by Xanthomonas oryzae pv. oryzicola. It causes narrow, water-soaked streaks on leaves. Control methods include using certified seeds and avoiding field flooding."),
  ("bakanae", "Bakanae Disease, also known as \x27Foolish Seedling\x27, is caused by the fungus Fusarium fujikuroi and leads to elongated, thin seedlings. Seed treatment with fungicides is recommended."),
  ("brown spot", "Brown Spot is caused by Bipolaris oryzae. It appears as brown circular spots on leaves, affecting photosynthesis. Improve soil fertility and use resistant varieties."),
  ("grassy stunt", "Rice Grassy Stunt Virus (RGSV) is spread by the brown planthopper and causes stunted growth. Control planthoppers with insecticides and use resistant varieties."),
  ("narrow brown spot", "Narrow Brown Spot is caused by the fungus Cercospora janseana, leading to narrow brown lesions on leaves. Fungicide application can help control it."),
  ("ragged stunt", "Rice Ragged Stunt Virus (RRSV), spread by brown planthoppers, causes ragged leaves and stunted plants. Vector control is essential."),
  ("rice blast", "Rice Blast is caused by the fungus Magnaporthe oryzae, producing diamond-shaped lesions on leaves. Use resistant varieties and avoid excessive nitrogen."),
  ("false smut", "Rice False Smut, caused by Ustilaginoidea virens, produces greenish smut balls on grains. Remove infected plants and use fungicides."),
  ("sheath blight", "Sheath Blight is caused by Rhizoctonia solani and forms lesions on the leaf sheath. Proper spacing and fungicides help control it."),
  ("sheath rot", "Sheath Rot is caused by Sarocladium oryzae, resulting in rotting of the uppermost leaf sheath. Avoid dense planting and use balanced fertilizers."),
  ("stem rot", "Stem Rot is caused by Sclerotium oryzae, which blackens the base of the stem. Practice field sanitation and crop rotation."),
  ("tungro", "Rice Tungro Virus is a dual infection (Rice Tungro Bacilliform and Spherical Viruses), causing yellow-orange leaf discoloration. Control green leafhopper vectors.")]

/-- One chat record `{"role": ..., "content": ...}` of
`st.session_state.history`. -/
structure ChatMessage where
  role : String
  content : String
  deriving DecidableEq, Repr

/-- The fixed greeting message used both to initialise the history
(`app.py` lines 116-119) and by the Clear Chat History button
(lines 284-288). -/
def greeting : ChatMessage :=
  ⟨"bot", "Hello 👋🏽! You can type your question about rice diseases — e.g., \x27What causes rice blast?\x27 or \x27How to treat bacterial leaf blight?\x27."⟩

/-- The Clear Chat History button handler (`app.py` lines 284-288):
`st.session_state.history` is reassigned to a one-element list holding the
greeting, whatever it held before. -/
def clearHistory (_history : List ChatMessage) : List ChatMessage := [greeting]

/-- The extractive QA capability `qa_pipeline(question=..., context=...)`:
`Except.ok a` models a successful call returning `result["answer"] = a`,
`Except.error e` models a raised exception. -/
abbrev QAFn := String → String → Except String String

/-- The gTTS synthesis step: `Except.ok b` models successfully produced audio
bytes, `Except.error e` a raised exception. -/
abbrev TTSFn := String → Except String String

/-- File-system events of the voice transcription block. -/
inductive FileEvent where
  | writeTmp
  | unlinkTmp
  deriving DecidableEq, Repr

/-- Outcome of the voice transcription block: the question it leaves set (if
any), the file events it performed, and the error/warning messages shown. -/
structure VoiceResult where
  question : Option String
  events : List FileEvent
  errors : List String
  warnings : List String
  deriving DecidableEq, Repr

/-- Voice transcription block (`app.py` lines 148-174), entered when an audio
recording is present and Whisper is available.  The audio is written to a
temporary file; `transcribe` is the outcome of
`whisper_model.transcribe(tmp_path)` (with `result["text"]` extracted), whose
exception is caught at line 165.  The transcript is kept as the question only
when, after `.strip()`, it is truthy and longer than 5 characters
(line 160).  The `os.unlink(tmp_path)` at line 172 sits after the whole
`try/except`, so it is reached on every path. -/
def voiceInputBlock (transcribe : Except String String) : VoiceResult :=
  match transcribe with
  | Except.ok text =>
    let question := pyStrip text
    if question ≠ "" ∧ 5 < question.length then
      { question := some question,
        events := [FileEvent.writeTmp, FileEvent.unlinkTmp],
        errors := [], warnings := [] }
    else
      { question := none,
        events := [FileEvent.writeTmp, FileEvent.unlinkTmp],
        errors := [],
        warnings := ["No clear speech detected in the recording. Please try again or use text input."] }
  | Except.error e =>
    { question := none,
      events := [FileEvent.writeTmp, FileEvent.unlinkTmp],
      errors := ["Error transcribing audio: " ++ e],
      warnings := [] }

/-- Question assignment (`app.py` lines 146-182): `question` starts as
`None`; the voice block (when an audio recording was made) may set it from
the transcript; then `text_input = st.chat_input(...)` overrides it whenever
the typed text is truthy (`if text_input: question = text_input`,
lines 181-182). -/
def determineQuestion (voice : Option (Except String String))
    (text_input : Option String) : Option String :=
  let question : Option String :=
    match voice with
    | some tr => (voiceInputBlock tr).question
    | none => none
  match text_input with
  | some t => if t ≠ "" then some t else question
  | none => question

/-- Keyword scan loop (`app.py` lines 202-211): lower-case the question, then
walk `sections` in declaration order and stop (`break`) at the first keyword
contained in the lowered question, yielding
`(matched_disease, selected_context)`; `none` models both variables staying
`None`. -/
def selectContext (question : String) : Option (String × String) :=
  sections.find? (fun ks => containsSubstr (pyLower question) ks.1)

/-- The static fallback answer used when no disease keyword matched
(`app.py` lines 225-237). -/
def fallbackAnswer : String :=
  "I couldn\x27t find specific information about that disease in my knowledge base. \n\nHere are some rice diseases I can help with:\n- Bacterial Leaf Blight\n- Rice Blast  \n- Tungro\n- Brown Spot\n- Sheath Blight\n- False Smut\n- Stem Rot\n- Grassy Stunt\n\nTry asking about one of these, or be more specific in your question!"

/-- Answer computation (`app.py` lines 202-237): if a context was selected,
call the QA pipeline; on success prefix the extracted span with the
title-cased disease name (line 220); on a caught exception fall back to a
message embedding the matched disease name and the raw context (line 222);
with no selected context return the static fallback answer. -/
def mkAnswer (qa : QAFn) (question : String) : String :=
  match selectContext question with
  | some (matched_disease, selected_context) =>
    match qa question selected_context with
    | Except.ok ans => "**About " ++ title matched_disease ++ ":**\n\n" ++ ans
    | Except.error _ =>
      "I found information about " ++ matched_disease ++
        ", but encountered an error processing it. Here\x27s what I know:\n\n" ++
        selected_context
  | none => fallbackAnswer

/-- Observable outcome of one run of the response-generation section. -/
structure InteractionResult where
  history : List ChatMessage
  errors : List String
  qaCalled : Bool
  audioPlayed : Bool
  reran : Bool
  deriving DecidableEq, Repr

/-- Response generation (`app.py` lines 198-261).  Guarded by
`if question and qa_pipeline:`: when both are truthy the user message is
appended, the answer computed, the bot message appended, the optional voice
output attempted (its exception caught at line 255), and `st.rerun()` called;
when a truthy question meets an unavailable pipeline only an error is shown
(lines 260-261); otherwise nothing happens.  `qaCalled` records whether
`qa_pipeline(...)` was invoked, which happens exactly when a context was
selected. -/
def generateResponse (qa_pipeline : Option QAFn) (tts : TTSFn)
    (output_mode : String) (question : Option String)
    (history : List ChatMessage) : InteractionResult :=
  match question, qa_pipeline with
  | some q, some qa =>
    if q = "" then
      { history := history, errors := [], qaCalled := false,
        audioPlayed := false, reran := false }
    else
      let hist1 := history ++ [⟨"user", q⟩]
      let answer := mkAnswer qa q
      let hist2 := hist1 ++ [⟨"bot", answer⟩]
      if output_mode = "Text + Voice" ∧ answer ≠ "" then
        match tts answer with
        | Except.ok _ =>
          { history := hist2, errors := [],
            qaCalled := (selectContext q).isSome,
            audioPlayed := true, reran := true }
        | Except.error e =>
          { history := hist2,
            errors := ["Error generating voice: " ++ e],
            qaCalled := (selectContext q).isSome,
            audioPlayed := false, reran := true }
      else
        { history := hist2, errors := [],
          qaCalled := (selectContext q).isSome,
          audioPlayed := false, reran := true }
  | some q, none =>
    if q = "" then
      { history := history, errors := [], qaCalled := false,
        audioPlayed := false, reran := false }
    else
      { history := history,
        errors := ["The question-answering system is not available. Please try again later."],
        qaCalled := false, audioPlayed := false, reran := false }
  | none, _ =>
    { history := history, errors := [], qaCalled := false,
      audioPlayed := false, reran := false }

/-- Sample QA capability used to instantiate universally quantified theorems
on concrete inputs. -/
def exampleQA : QAFn := fun _ _ => Except.ok "use resistant varieties"

/-- Sample QA capability whose calls always raise. -/
def exampleFailQA : QAFn := fun _ _ => Except.error "inference failed"

/-- Sample synthesiser that always succeeds. -/
def exampleTTS : TTSFn := fun _ => Except.ok "mp3-bytes"

/-- Sample synthesiser whose calls always raise. -/
def exampleFailTTS : TTSFn := fun _ => Except.error "synthesis failed"

/- Helper lemmas about the character-list substring test. -/

theorem isPrefixOf_append_right (l t : List Char) :
    l.isPrefixOf (l ++ t) = true := by
  induction l with
  | nil => simp [List.isPrefixOf]
  | cons c cs ih => simp [List.isPrefixOf, ih]

theorem listContainsSub_of_isPrefixOf {nd hs : List Char}
    (h : nd.isPrefixOf hs = true) : listContainsSub nd hs = true := by
  cases hs with
  | nil => exact h
  | cons a t => simp [listContainsSub, h]

theorem listContainsSub_append_left (a : List Char) {nd hs : List Char}
    (h : listContainsSub nd hs = true) :
    listContainsSub nd (a ++ hs) = true := by
  induction a with
  | nil => exact h
  | cons c cs ih => simp [listContainsSub, ih]

/-- A string whose character data is `a ++ nd.data ++ b` contains `nd`. -/
theorem containsSubstr_of_surround (s nd : String) (a b : List Char)
    (h : s.data = a ++ (nd.data ++ b)) : containsSubstr s nd = true := by
  unfold containsSubstr
  rw [h]
  exact listContainsSub_append_left a
    (listContainsSub_of_isPrefixOf (isPrefixOf_append_right nd.data b))

theorem strData_append (s t : String) : (s ++ t).data = s.data ++ t.data := rfl

theorem ne_empty_of_data_ne_nil {s : String} (h : s.data ≠ []) : s ≠ "" := by
  intro he
  apply h
  rw [he]

theorem append_data_ne_nil (s t : String) (h : s.data ≠ []) :
    (s ++ t).data ≠ [] := by
  rw [strData_append]
  cases hs : s.data with
  | nil => exact absurd hs h
  | cons a l => simp

/-- Every branch of the answer computation yields a non-empty string, so the
guard `and answer` at `app.py` line 242 is always true. -/
theorem mkAnswer_ne_empty (qa : QAFn) (q : String) : mkAnswer qa q ≠ "" := by
  unfold mkAnswer
  generalize selectContext q = sel
  cases sel with
  | none =>
    dsimp only
    decide
  | some ks =>
    obtain ⟨md, ctx⟩ := ks
    dsimp only
    generalize qa q ctx = r
    cases r with
    | ok ans =>
      dsimp only
      refine ne_empty_of_data_ne_nil
        (append_data_ne_nil _ _ (append_data_ne_nil _ _
          (append_data_ne_nil _ _ ?_)))
      decide
    | error e =>
      dsimp only
      refine ne_empty_of_data_ne_nil
        (append_data_ne_nil _ _ (append_data_ne_nil _ _
          (append_data_ne_nil _ _ ?_)))
      decide

/-- `List.find?` returns the marked element when everything before it fails
the predicate. -/
theorem find?_append_first {α : Type} (p : α → Bool) (l₁ l₂ : List α) (x : α)
    (h₁ : ∀ a ∈ l₁, p a = false) (hx : p x = true) :
    (l₁ ++ x :: l₂).find? p = some x := by
  induction l₁ with
  | nil => simpa using List.find?_cons_of_pos l₂ hx
  | cons a t ih =>
    rw [List.cons_append, List.find?_cons_of_neg]
    · exact ih fun b hb => h₁ b (List.mem_cons_of_mem a hb)
    · simp [h₁ a (List.mem_cons_self a t)]

/-- Shape of the interaction outcome when a truthy question meets an
available pipeline: exactly the user and bot messages are appended. -/
theorem generateResponse_history_eq (qa : QAFn) (tts : TTSFn) (mode : String)
    (q : String) (hist : List ChatMessage) (hq : q ≠ "") :
    (generateResponse (some qa) tts mode (some q) hist).history =
      hist ++ [⟨"user", q⟩, ⟨"bot", mkAnswer qa q⟩] := by
  simp only [generateResponse]
  rw [if_neg hq]
  split
  · split <;> simp
  · simp

/-- C1: for every question containing at least one configured keyword as a
case-insensitive substring, the context selector returns the description
paired with the first such keyword in the declaration order of the knowledge
base: all keywords declared before it fail the substring test, and any later
keyword — however specific — is never selected. -/
theorem selectContext_first_match (q : String) (pre post : List (String × String))
    (k d : String) (hsec : sections = pre ++ (k, d) :: post)
    (hpre : ∀ ks ∈ pre, containsSubstr (pyLower q) ks.1 = false)
    (hk : containsSubstr (pyLower q) k = true) :
    selectContext q = some (k, d) := by
  unfold selectContext
  rw [hsec]
  exact find?_append_first _ pre post (k, d) hpre hk

set_option maxRecDepth 8192 in
/-- Witness for C1: a question containing the later, more specific keyword
"narrow brown spot" selects the earlier "brown spot" entry. -/
theorem selectContext_first_match_witness :
    selectContext "Tell me about narrow brown spot" =
      some ("brown spot", "Brown Spot is caused by Bipolaris oryzae. It appears as brown circular spots on leaves, affecting photosynthesis. Improve soil fertility and use resistant varieties.") :=
  selectContext_first_match "Tell me about narrow brown spot"
    (sections.take 3) (sections.drop 4) "brown spot"
    "Brown Spot is caused by Bipolaris oryzae. It appears as brown circular spots on leaves, affecting photosynthesis. Improve soil fertility and use resistant varieties."
    (by decide) (by decide) (by decide)

/-- C2: for every question containing no configured keyword as a
case-insensitive substring, the selector returns no match
(`selected_context` stays `None`) and the generated answer is the fixed
static fallback message, whatever the QA capability would return. -/
theorem selectContext_no_match (q : String)
    (h : ∀ ks ∈ sections, containsSubstr (pyLower q) ks.1 = false) :
    selectContext q = none ∧ ∀ qa : QAFn, mkAnswer qa q = fallbackAnswer := by
  have hnone : selectContext q = none := by
    unfold selectContext
    exact List.find?_eq_none.mpr fun x hx => by simp [h x hx]
  refine ⟨hnone, fun qa => ?_⟩
  unfold mkAnswer
  rw [hnone]

set_option maxRecDepth 8192 in
/-- Witness for C2 at the question "tell me about aliens". -/
theorem selectContext_no_match_witness :
    selectContext "tell me about aliens" = none ∧
      mkAnswer exampleQA "tell me about aliens" = fallbackAnswer :=
  ⟨(selectContext_no_match "tell me about aliens" (by decide)).1,
   (selectContext_no_match "tell me about aliens" (by decide)).2 exampleQA⟩

/-- C3: clearing the chat history replaces the message sequence with exactly
one message, the fixed greeting with role `bot`, whatever the history held
before. -/
theorem clearHistory_single_greeting (history : List ChatMessage) :
    clearHistory history = [greeting] ∧ (clearHistory history).length = 1 ∧
      greeting.role = "bot" :=
  ⟨rfl, rfl, rfl⟩

/-- C4: the chat history is append-only between explicit clears: every run of
the response-generation section leaves the previous history as a prefix of
the new one, and processing a truthy question with an available pipeline
appends exactly the user record followed by the bot record. -/
theorem history_append_only (qp : Option QAFn) (tts : TTSFn) (mode : String)
    (question : Option String) (hist : List ChatMessage) :
    hist <+: (generateResponse qp tts mode question hist).history ∧
    ∀ q qa, question = some q → q ≠ "" → qp = some qa →
      (generateResponse qp tts mode question hist).history =
        hist ++ [⟨"user", q⟩, ⟨"bot", mkAnswer qa q⟩] := by
  constructor
  · rcases question with _ | q
    · simp [generateResponse]
    · rcases qp with _ | qa
      · by_cases hq : q = "" <;> simp [generateResponse, hq]
      · by_cases hq : q = ""
        · simp [generateResponse, hq]
        · rw [generateResponse_history_eq qa tts mode q hist hq]
          exact List.prefix_append _ _
  · intro q qa hquestion hq hqp
    subst hquestion
    subst hqp
    exact generateResponse_history_eq qa tts mode q hist hq

/-- Witness for C4: one interaction on a non-empty history appends exactly
the two records. -/
theorem history_append_only_witness :
    (generateResponse (some exampleQA) exampleTTS "Text only"
        (some "What causes rice blast?") [greeting]).history =
      [greeting] ++ [⟨"user", "What causes rice blast?"⟩,
        ⟨"bot", mkAnswer exampleQA "What causes rice blast?"⟩] :=
  (history_append_only (some exampleQA) exampleTTS "Text only"
      (some "What causes rice blast?") [greeting]).2
    "What causes rice blast?" exampleQA rfl (by decide) rfl

/-- C5: when a context was selected and the QA call raises, the bot answer is
the fallback embedding the matched disease name and the raw context text —
both occur in it as substrings — and the interaction still appends the user
and bot messages to the history. -/
theorem qa_failure_falls_back (qa : QAFn) (tts : TTSFn) (mode : String)
    (q k ctx e : String) (hist : List ChatMessage) (hq : q ≠ "")
    (hsel : selectContext q = some (k, ctx))
    (hqa : qa q ctx = Except.error e) :
    mkAnswer qa q =
      "I found information about " ++ k ++
        ", but encountered an error processing it. Here\x27s what I know:\n\n" ++
        ctx ∧
    containsSubstr (mkAnswer qa q) ctx = true ∧
    containsSubstr (mkAnswer qa q) k = true ∧
    (generateResponse (some qa) tts mode (some q) hist).history =
      hist ++ [⟨"user", q⟩, ⟨"bot", mkAnswer qa q⟩] := by
  have hans : mkAnswer qa q =
      "I found information about " ++ k ++
        ", but encountered an error processing it. Here\x27s what I know:\n\n" ++
        ctx := by
    unfold mkAnswer
    rw [hsel]
    dsimp only
    rw [hqa]
  refine ⟨hans, ?_, ?_, generateResponse_history_eq qa tts mode q hist hq⟩
  · rw [hans]
    refine containsSubstr_of_surround _ _
      (("I found information about " ++ k ++
        ", but encountered an error processing it. Here\x27s what I know:\n\n").data)
      [] ?_
    simp [strData_append]
  · rw [hans]
    refine containsSubstr_of_surround _ _ ("I found information about ".data)
      ((", but encountered an error processing it. Here\x27s what I know:\n\n").data
        ++ ctx.data) ?_
    simp [strData_append]

/-- The description of the "rice blast" entry of the knowledge base. -/
def riceBlastDescr : String :=
  "Rice Blast is caused by the fungus Magnaporthe oryzae, producing diamond-shaped lesions on leaves. Use resistant varieties and avoid excessive nitrogen."

set_option maxRecDepth 8192 in
/-- Witness for C5: a rice-blast question with an always-raising QA call. -/
theorem qa_failure_falls_back_witness :
    mkAnswer exampleFailQA "How to treat rice blast?" =
      "I found information about " ++ "rice blast" ++
        ", but encountered an error processing it. Here\x27s what I know:\n\n" ++
        riceBlastDescr ∧
    containsSubstr (mkAnswer exampleFailQA "How to treat rice blast?")
      riceBlastDescr = true ∧
    containsSubstr (mkAnswer exampleFailQA "How to treat rice blast?")
      "rice blast" = true ∧
    (generateResponse (some exampleFailQA) exampleTTS "Text only"
        (some "How to treat rice blast?") []).history =
      [] ++ [⟨"user", "How to treat rice blast?"⟩,
        ⟨"bot", mkAnswer exampleFailQA "How to treat rice blast?"⟩] :=
  qa_failure_falls_back exampleFailQA exampleTTS "Text only"
    "How to treat rice blast?" "rice blast" riceBlastDescr "inference failed"
    [] (by decide) (by decide) rfl

/-- C6: the voice block performs the temporary-file deletion on every path —
successful transcription, empty or too-short transcript, and raised
transcription error alike — its file-event trace is always the write followed
by the unlink. -/
theorem voice_tmp_file_always_deleted (transcribe : Except String String) :
    (voiceInputBlock transcribe).events =
      [FileEvent.writeTmp, FileEvent.unlinkTmp] ∧
    FileEvent.unlinkTmp ∈ (voiceInputBlock transcribe).events := by
  have hev : (voiceInputBlock transcribe).events =
      [FileEvent.writeTmp, FileEvent.unlinkTmp] := by
    rcases transcribe with e | text
    · rfl
    · simp only [voiceInputBlock]
      split <;> rfl
  rw [hev]
  simp

/-- C7: a transcript that is empty or whitespace after stripping leaves the
question unset, so the interaction makes no QA call and leaves the chat
history unchanged. -/
theorem empty_transcript_discarded (t : String) (qp : Option QAFn)
    (tts : TTSFn) (mode : String) (hist : List ChatMessage)
    (h : pyStrip t = "") :
    (voiceInputBlock (Except.ok t)).question = none ∧
    determineQuestion (some (Except.ok t)) none = none ∧
    (generateResponse qp tts mode
        (determineQuestion (some (Except.ok t)) none) hist).history = hist ∧
    (generateResponse qp tts mode
        (determineQuestion (some (Except.ok t)) none) hist).qaCalled = false := by
  have hvb : (voiceInputBlock (Except.ok t)).question = none := by
    simp only [voiceInputBlock]
    rw [if_neg fun hcon => hcon.1 h]
  have hdq : determineQuestion (some (Except.ok t)) none = none := hvb
  refine ⟨hvb, hdq, ?_, ?_⟩ <;> rw [hdq] <;> rfl

/-- Witness for C7 at the whitespace transcript. -/
theorem empty_transcript_discarded_witness :
    (voiceInputBlock (Except.ok "   ")).question = none ∧
    determineQuestion (some (Except.ok "   ")) none = none ∧
    (generateResponse (some exampleQA) exampleTTS "Text only"
        (determineQuestion (some (Except.ok "   ")) none) [greeting]).history =
      [greeting] ∧
    (generateResponse (some exampleQA) exampleTTS "Text only"
        (determineQuestion (some (Except.ok "   ")) none) [greeting]).qaCalled =
      false :=
  empty_transcript_discarded "   " (some exampleQA) exampleTTS "Text only"
    [greeting] (by decide)

/-- C8: when voice output is selected and the synthesis call raises, the
display error is recorded and playback skipped, while the already-appended
user and bot messages stay in the history and the interaction still reaches
its final rerun. -/
theorem tts_failure_nonfatal (qa : QAFn) (tts : TTSFn) (q e : String)
    (hist : List ChatMessage) (hq : q ≠ "")
    (htts : tts (mkAnswer qa q) = Except.error e) :
    (generateResponse (some qa) tts "Text + Voice" (some q) hist).history =
      hist ++ [⟨"user", q⟩, ⟨"bot", mkAnswer qa q⟩] ∧
    (generateResponse (some qa) tts "Text + Voice" (some q) hist).audioPlayed =
      false ∧
    ("Error generating voice: " ++ e) ∈
      (generateResponse (some qa) tts "Text + Voice" (some q) hist).errors ∧
    (generateResponse (some qa) tts "Text + Voice" (some q) hist).reran =
      true := by
  have hgen : generateResponse (some qa) tts "Text + Voice" (some q) hist =
      { history := hist ++ [⟨"user", q⟩] ++ [⟨"bot", mkAnswer qa q⟩],
        errors := ["Error generating voice: " ++ e],
        qaCalled := (selectContext q).isSome,
        audioPlayed := false, reran := true } := by
    simp only [generateResponse]
    rw [if_neg hq]
    split
    · rw [htts]
    · next hcon => exact absurd ⟨by trivial, mkAnswer_ne_empty qa q⟩ hcon
  rw [hgen]
  exact ⟨by simp, rfl, by simp, rfl⟩

/-- Witness for C8 with an always-raising synthesiser. -/
theorem tts_failure_nonfatal_witness :
    (generateResponse (some exampleQA) exampleFailTTS "Text + Voice"
        (some "What is tungro?") []).history =
      [] ++ [⟨"user", "What is tungro?"⟩,
        ⟨"bot", mkAnswer exampleQA "What is tungro?"⟩] ∧
    (generateResponse (some exampleQA) exampleFailTTS "Text + Voice"
        (some "What is tungro?") []).audioPlayed = false ∧
    ("Error generating voice: " ++ "synthesis failed") ∈
      (generateResponse (some exampleQA) exampleFailTTS "Text + Voice"
        (some "What is tungro?") []).errors ∧
    (generateResponse (some exampleQA) exampleFailTTS "Text + Voice"
        (some "What is tungro?") []).reran = true :=
  tts_failure_nonfatal exampleQA exampleFailTTS "What is tungro?"
    "synthesis failed" [] (by decide) rfl

/-- C9: when a voice transcript and a truthy typed text input are both
present, the typed text is assigned to the question last and unconditionally,
overriding the transcript. -/
theorem text_input_overrides_transcript (voice : Except String String)
    (t : String) (ht : t ≠ "") :
    determineQuestion (some voice) (some t) = some t := by
  have hdef : determineQuestion (some voice) (some t) =
      if t ≠ "" then some t else (voiceInputBlock voice).question := rfl
  rw [hdef, if_pos ht]

/-- Witness for C9: a long, meaningful transcript is overridden by the typed
text. -/
theorem text_input_overrides_transcript_witness :
    determineQuestion (some (Except.ok "this is a long voice transcript"))
      (some "typed question") = some "typed question" :=
  text_input_overrides_transcript (Except.ok "this is a long voice transcript")
    "typed question" (by decide)

/-- C10: a truthy question submitted while the QA pipeline is unavailable is
discarded atomically: the error is displayed, no QA call is made, and the
history is exactly what it was before the interaction. -/
theorem qa_unavailable_question_discarded (q : String) (tts : TTSFn)
    (mode : String) (hist : List ChatMessage) (hq : q ≠ "") :
    (generateResponse none tts mode (some q) hist).history = hist ∧
    (generateResponse none tts mode (some q) hist).errors =
      ["The question-answering system is not available. Please try again later."] ∧
    (generateResponse none tts mode (some q) hist).qaCalled = false := by
  have hgen : generateResponse none tts mode (some q) hist =
      { history := hist,
        errors := ["The question-answering system is not available. Please try again later."],
        qaCalled := false, audioPlayed := false, reran := false } := by
    simp only [generateResponse]
    rw [if_neg hq]
  rw [hgen]
  exact ⟨rfl, rfl, rfl⟩

/-- Witness for C10 at a concrete question and history. -/
theorem qa_unavailable_question_discarded_witness :
    (generateResponse none exampleTTS "Text only"
        (some "What causes brown spot?") [greeting]).history = [greeting] ∧
    (generateResponse none exampleTTS "Text only"
        (some "What causes brown spot?") [greeting]).errors =
      ["The question-answering system is not available. Please try again later."] ∧
    (generateResponse none exampleTTS "Text only"
        (some "What causes brown spot?") [greeting]).qaCalled = false :=
  qa_unavailable_question_discarded "What causes brown spot?" exampleTTS
    "Text only" [greeting] (by decide)

end RiceQA

